import Mathlib

/-!
Verification development for the multi-timeframe technical signal engine of
the mexc_scalping_bot repository.

The Python core is shallowly embedded over exact rationals (ℚ):
  * src/indicators/technical_analysis.py  → indicator pipeline
  * src/utils/helpers.py                  → Fibonacci targets / ATR stop-loss
  * src/strategies/signal_generator.py    → entry scoring and quality gate
  * src/strategies/exit_manager.py        → prioritized exit rule chain

Pandas / ta-library semantics used by the source are embedded as follows
(each pinned at its definition):
  * `Series.ewm(alpha, adjust=False).mean()` is the recursion
    y0 = x0, y_t = (1-alpha) * y_(t-1) + alpha * x_t; the last value is
    real as soon as at least `min_periods` observations exist;
  * `ewm(span=s)` uses alpha = 2/(s+1);
  * `rolling(window=w, center=True)` places the label at offset
    (w-1)/2 (integer division), so the last fully populated window covers
    exactly the final w rows;
  * `DataFrame.max(axis=1)` skips NaN cells;
  * ta `OnBalanceVolumeIndicator`: signed volume is -volume when the close
    fell versus the previous bar and +volume otherwise (ties add volume);
  * float truthiness: a Python `if x:` on a float field is false exactly
    when the value is absent (None) or equal to 0.
-/

set_option maxRecDepth 200000

/- The Batteries rational-number operations are irreducible by default,
which blocks evaluation of the embedded pipeline inside `decide`; restore
semireducibility so concrete windows can be computed by the kernel. -/
set_option allowUnsafeReducibility true in
attribute [semireducible] Rat.mul Rat.inv Rat.add Rat.sub Rat.ofScientific

/-- Market trend classification, the strings 'bullish' / 'bearish' / 'neutral'
of the source. -/
inductive Trend where
  | bullish
  | bearish
  | neutral
deriving DecidableEq

/-- Trade direction, the strings 'LONG' / 'SHORT' of the source. -/
inductive Dir where
  | LONG
  | SHORT
deriving DecidableEq

/-- OBV trend, the strings 'rising' / 'falling' of the source. -/
inductive ObvTrend where
  | rising
  | falling
deriving DecidableEq

/-- One OHLCV candle row of a market-data DataFrame. -/
structure Candle where
  timestamp : Int
  «open» : ℚ
  high : ℚ
  low : ℚ
  close : ℚ
  volume : ℚ
deriving DecidableEq

/-- A candle window (DataFrame rows in chronological order, oldest first). -/
abbrev Window := List Candle

def closes (w : Window) : List ℚ := w.map Candle.close

def opens (w : Window) : List ℚ := w.map Candle.«open»

def highs (w : Window) : List ℚ := w.map Candle.high

def lows (w : Window) : List ℚ := w.map Candle.low

def volumes (w : Window) : List ℚ := w.map Candle.volume

/-- Python `abs` on a float, over ℚ. -/
def absQ (x : ℚ) : ℚ := if x < 0 then -x else x

/-- Binary maximum written with an explicit comparison. -/
def maxQ2 (a b : ℚ) : ℚ := if a ≤ b then b else a

/-- Binary minimum written with an explicit comparison. -/
def minQ2 (a b : ℚ) : ℚ := if a ≤ b then a else b

/-- `series.max()` over a nonempty column (0 on an empty one, unreachable
behind the length guards of the source). -/
def maxQ : List ℚ → ℚ
  | [] => 0
  | x :: t => t.foldl maxQ2 x

/-- `series.min()` over a nonempty column. -/
def minQ : List ℚ → ℚ
  | [] => 0
  | x :: t => t.foldl minQ2 x

/-- `series.mean()`. -/
def avgQ (xs : List ℚ) : ℚ := xs.sum / (xs.length : ℚ)

/-- `series.iloc[-1]` (default 0 on an empty column, unreachable behind the
source's guards). -/
def lastQ (xs : List ℚ) : ℚ := xs.getLast?.getD 0

/-- The last `k` elements of a column, `series.tail(k)` / `iloc[-k:]`. -/
def tailQ (xs : List ℚ) (k : ℕ) : List ℚ := xs.drop (xs.length - k)

/-- `series.diff(1)` dropping the leading NaN cell: consecutive differences. -/
def diffsQ : List ℚ → List ℚ
  | a :: b :: t => (b - a) :: diffsQ (b :: t)
  | _ => []

/-- Last value of `ewm(alpha=alpha, adjust=False).mean()` started at `x0`:
y0 = x0, y_t = (1-alpha) * y_(t-1) + alpha * x_t. -/
def ewm_last (alpha : ℚ) (x0 : ℚ) (xs : List ℚ) : ℚ :=
  xs.foldl (fun y x => (1 - alpha) * y + alpha * x) x0

/-- TechnicalAnalysis.calculate_rsi, last value.  ta's RSIIndicator builds
`up = diff.where(diff > 0, 0)` and `down = -diff.where(diff < 0, -0.0)`
(both start with a 0 cell in place of the leading NaN of `diff`), smooths
each with `ewm(alpha=1/window, adjust=False)` and returns
`where(emadn == 0, 100, 100 - 100/(1+emaup/emadn))`.  The last value is a
real number whenever the series has at least `window` rows. -/
def rsi_last (window : ℕ) (cs : List ℚ) : ℚ :=
  let ds := diffsQ cs
  let emaup := ewm_last (1 / (window : ℚ)) 0 (ds.map fun d => if 0 < d then d else 0)
  let emadn := ewm_last (1 / (window : ℚ)) 0 (ds.map fun d => if d < 0 then -d else 0)
  if emadn = 0 then 100 else 100 - 100 / (1 + emaup / emadn)

/-- TechnicalAnalysis.calculate_ema, last value.  ta's EMAIndicator is
`close.ewm(span=window, min_periods=window, adjust=False).mean()`, so
alpha = 2/(window+1), seeded with the first close. -/
def ema_last (window : ℕ) (cs : List ℚ) : ℚ :=
  match cs with
  | [] => 0
  | c :: rest => ewm_last (2 / ((window : ℚ) + 1)) c rest

/-- Signed volume column of ta's OnBalanceVolumeIndicator:
`np.where(close < close.shift(1), -volume, volume)` (the first row, compared
against NaN, takes +volume; a tie also takes +volume).  The first argument
carries the previous close. -/
def signed_volumes : Option ℚ → List (ℚ × ℚ) → List ℚ
  | _, [] => []
  | pc, (c, v) :: t =>
    (match pc with
     | some p => if c < p then -v else v
     | none => v) :: signed_volumes (some c) t

/-- Running cumulative sum (`Series.cumsum()`). -/
def cumsumQ : ℚ → List ℚ → List ℚ
  | _, [] => []
  | acc, x :: t => (acc + x) :: cumsumQ (acc + x) t

/-- TechnicalAnalysis.calculate_obv: cumulative signed volume. -/
def obv_list (w : Window) : List ℚ :=
  cumsumQ 0 (signed_volumes none ((closes w).zip (volumes w)))

/-- True-range column shared by ta's AverageTrueRange and by
helpers.calculate_atr_stop_loss: per row
max(high-low, |high-prev_close|, |low-prev_close|), where the first row
(whose prev_close cell is NaN) degrades to high-low because both pandas
row-wise `max(axis=1)` and ta's `_true_range` skip NaN.  The first argument
carries the previous close. -/
def true_ranges : Option ℚ → Window → List ℚ
  | _, [] => []
  | pc, c :: t =>
    (match pc with
     | some p => maxQ2 (c.high - c.low) (maxQ2 (absQ (c.high - p)) (absQ (c.low - p)))
     | none => c.high - c.low) :: true_ranges (some c.close) t

/-- Wilder smoothing loop of ta's AverageTrueRange:
atr[window-1] = mean(tr[0:window]); atr[i] = (atr[i-1]*(window-1)+tr[i])/window. -/
def atr_last (window : ℕ) (w : Window) : ℚ :=
  let trs := true_ranges none w
  (trs.drop window).foldl
    (fun a tr => (a * ((window : ℚ) - 1) + tr) / (window : ℚ))
    (avgQ (trs.take window))

/-- TechnicalAnalysis.analyze_trend: 'neutral' when the window is shorter
than the slower EMA; otherwise compare the two EMAs on the last bar. -/
def analyze_trend (w : Window) (fast_ema slow_ema : ℕ) : Trend :=
  if w.length < max fast_ema slow_ema then .neutral
  else
    let ema_fast := ema_last fast_ema (closes w)
    let ema_slow := ema_last slow_ema (closes w)
    if ema_slow < ema_fast then .bullish
    else if ema_fast < ema_slow then .bearish
    else .neutral

/-- TechnicalAnalysis.detect_volume_spike: false when fewer than
lookback+1 rows exist, else compares the last volume against
`multiplier × mean(volume.iloc[-lookback-1:-1])` (the `lookback` rows
immediately preceding the last one). -/
def detect_volume_spike (w : Window) (multiplier : ℚ) (lookback : ℕ) : Bool :=
  if w.length < lookback + 1 then false
  else
    let vs := volumes w
    decide (avgQ (tailQ vs.dropLast lookback) * multiplier < lastQ vs)

/-- Candlestick pattern flags of one analysis (the dict returned by
identify_candlestick_patterns). -/
structure Patterns where
  doji : Bool
  hammer : Bool
  inverted_hammer : Bool
  bullish_engulfing : Bool
  bearish_engulfing : Bool
  bullish_pinbar : Bool
  bearish_pinbar : Bool
deriving DecidableEq

def is_doji (c : Candle) : Bool :=
  decide (absQ (c.close - c.«open») ≤ (c.high - c.low) * (1/10))

def is_hammer (c : Candle) : Bool :=
  let body := absQ (c.close - c.«open»)
  let lower := minQ2 c.«open» c.close - c.low
  let upper := c.high - maxQ2 c.«open» c.close
  decide (body * 2 ≤ lower ∧ upper ≤ body * (1/2) ∧ 0 < body)

def is_inverted_hammer (c : Candle) : Bool :=
  let body := absQ (c.close - c.«open»)
  let lower := minQ2 c.«open» c.close - c.low
  let upper := c.high - maxQ2 c.«open» c.close
  decide (body * 2 ≤ upper ∧ lower ≤ body * (1/2) ∧ 0 < body)

def is_bullish_engulfing (prev cur : Candle) : Bool :=
  decide (prev.close < prev.«open» ∧ cur.«open» < cur.close ∧
    cur.«open» < prev.close ∧ prev.«open» < cur.close)

def is_bearish_engulfing (prev cur : Candle) : Bool :=
  decide (prev.«open» < prev.close ∧ cur.close < cur.«open» ∧
    prev.close < cur.«open» ∧ cur.close < prev.«open»)

def is_bullish_pinbar (c : Candle) : Bool :=
  let body := absQ (c.close - c.«open»)
  let lower := minQ2 c.«open» c.close - c.low
  let upper := c.high - maxQ2 c.«open» c.close
  let range := c.high - c.low
  decide (range * (6/10) ≤ lower ∧ body ≤ range * (3/10) ∧ upper ≤ range * (2/10))

def is_bearish_pinbar (c : Candle) : Bool :=
  let body := absQ (c.close - c.«open»)
  let lower := minQ2 c.«open» c.close - c.low
  let upper := c.high - maxQ2 c.«open» c.close
  let range := c.high - c.low
  decide (range * (6/10) ≤ upper ∧ body ≤ range * (3/10) ∧ lower ≤ range * (2/10))

/-- TechnicalAnalysis.identify_candlestick_patterns: returns the empty dict
(modelled `none`) when fewer than 3 rows exist; otherwise the single- and
two-bar flags of the last candle (the two-bar patterns use `iloc[-2]`). -/
def identify_candlestick_patterns (w : Window) : Option Patterns :=
  if w.length < 3 then none
  else
    match w.getLast?, w.dropLast.getLast? with
    | some cur, some prev =>
      some { doji := is_doji cur
             hammer := is_hammer cur
             inverted_hammer := is_inverted_hammer cur
             bullish_engulfing := is_bullish_engulfing prev cur
             bearish_engulfing := is_bearish_engulfing prev cur
             bullish_pinbar := is_bullish_pinbar cur
             bearish_pinbar := is_bearish_pinbar cur }
    | _, _ => none

/-- TechnicalAnalysis.calculate_support_resistance: (support, resistance).
None/None below `window` rows.  The centered rolling min/max of pandas
labels its last fully populated window over exactly the final `window`
rows, so the most recent defined value is the min of the last `window`
lows (resp. max of the highs). -/
def calculate_support_resistance (w : Window) (window : ℕ) : Option ℚ × Option ℚ :=
  if w.length < window then (none, none)
  else (some (minQ (tailQ (lows w) window)), some (maxQ (tailQ (highs w) window)))

/-- The comprehensive-analysis dict of one timeframe
(TechnicalAnalysis.get_comprehensive_analysis).  `none` models a missing
or None-valued key. -/
structure Analysis where
  rsi_7 : Option ℚ
  rsi_14 : Option ℚ
  ema_20 : Option ℚ
  ema_50 : Option ℚ
  obv : Option ℚ
  obv_trend : Option ObvTrend
  atr : Option ℚ
  trend : Option Trend
  volume_spike : Bool
  candlestick_patterns : Option Patterns
  support : Option ℚ
  resistance : Option ℚ
  current_price : Option ℚ
  current_volume : Option ℚ
deriving DecidableEq

/-- The empty dict `{}` returned by get_comprehensive_analysis when the
window is empty (the `iloc[-1]` access raises and the handler returns {}). -/
def empty_analysis : Analysis :=
  { rsi_7 := none, rsi_14 := none, ema_20 := none, ema_50 := none,
    obv := none, obv_trend := none, atr := none, trend := none,
    volume_spike := false, candlestick_patterns := none,
    support := none, resistance := none,
    current_price := none, current_volume := none }

/-- TechnicalAnalysis.get_comprehensive_analysis.  Length guards mirror the
source plus the min_periods masking of the ta indicators: the rsi/ema/atr
values are real numbers exactly when the guard holds.  `obv_trend` is
'rising' if the series has at least two values and the last strictly
exceeds the one before, else 'falling'. -/
def get_comprehensive_analysis (w : Window) : Analysis :=
  if w = [] then empty_analysis
  else
    let obv := obv_list w
    { rsi_7 := if 7 ≤ w.length then some (rsi_last 7 (closes w)) else none
      rsi_14 := if 14 ≤ w.length then some (rsi_last 14 (closes w)) else none
      ema_20 := if 20 ≤ w.length then some (ema_last 20 (closes w)) else none
      ema_50 := if 50 ≤ w.length then some (ema_last 50 (closes w)) else none
      obv := if obv = [] then none else some (lastQ obv)
      obv_trend := some (if 2 ≤ obv.length ∧ lastQ obv.dropLast < lastQ obv
                         then .rising else .falling)
      atr := if 14 ≤ w.length then some (atr_last 14 w) else none
      trend := some (analyze_trend w 20 50)
      volume_spike := detect_volume_spike w 2 20
      candlestick_patterns := identify_candlestick_patterns w
      support := (calculate_support_resistance w 20).1
      resistance := (calculate_support_resistance w 20).2
      current_price := some (lastQ (closes w))
      current_volume := some (lastQ (volumes w)) }

/-- helpers.calculate_fibonacci_levels: take-profit levels from the
high/low of a move.  Long levels grow from the low, short levels fall from
the high; ratios 0.382 / 0.618 / 1.0 / 1.618.  Any direction string other
than 'long' takes the short branch, so the direction is two-valued. -/
def calculate_fibonacci_levels (high low : ℚ) (direction : Dir) : List (String × ℚ) :=
  let diff := high - low
  if direction = .LONG then
    [("TP1", low + diff * (382/1000)),
     ("TP2", low + diff * (618/1000)),
     ("TP3", low + diff * 1),
     ("TP4", low + diff * (1618/1000))]
  else
    [("TP1", high - diff * (382/1000)),
     ("TP2", high - diff * (618/1000)),
     ("TP3", high - diff * 1),
     ("TP4", high - diff * (1618/1000))]

/-- helpers.calculate_atr_stop_loss, returned value only: None below
atr_period rows, else the last close minus (long) or plus (short) the
rolling-mean ATR times the multiplier.  The ATR here is
`true_range.rolling(atr_period).mean().iloc[-1]`, the plain mean of the
last atr_period true ranges — unlike the Wilder ATR of the indicator
engine. -/
def calculate_atr_stop_loss (w : Window) (atr_period : ℕ) (multiplier : ℚ)
    (direction : Dir) : Option ℚ :=
  if w.length < atr_period then none
  else
    let atr := avgQ (tailQ (true_ranges none w) atr_period)
    let current_price := lastQ (closes w)
    some (if direction = .LONG then current_price - atr * multiplier
          else current_price + atr * multiplier)

/-- A pandas DataFrame as handed around by the bot: the OHLCV candle rows
plus any derived columns that code has assigned into the frame
(`df[name] = series`).  Derived cells are Option ℚ, none being NaN. -/
structure Frame where
  candles : List Candle
  extra_cols : List (String × List (Option ℚ))
deriving DecidableEq

/-- Previous-close column `df['close'].shift(1)`: NaN (none) in the first
row. -/
def prev_closes (w : Window) : List (Option ℚ) :=
  none :: (closes w).dropLast.map some

/-- Column `df['high'] - df['low']`. -/
def col_high_low (w : Window) : List (Option ℚ) :=
  w.map fun c => some (c.high - c.low)

/-- Column `abs(df['high'] - df['close'].shift(1))`. -/
def col_high_close (w : Window) : List (Option ℚ) :=
  (w.zip (prev_closes w)).map fun cp => cp.2.map fun p => absQ (cp.1.high - p)

/-- Column `abs(df['low'] - df['close'].shift(1))`. -/
def col_low_close (w : Window) : List (Option ℚ) :=
  (w.zip (prev_closes w)).map fun cp => cp.2.map fun p => absQ (cp.1.low - p)

/-- Column `df[['high_low','high_close','low_close']].max(axis=1)`
(row-wise max skipping NaN; the first row keeps high-low). -/
def col_true_range (w : Window) : List (Option ℚ) :=
  (true_ranges none w).map some

/-- `df[name] = series`: overwrite the column if present, else append it. -/
def assign_col (cols : List (String × List (Option ℚ))) (name : String)
    (vals : List (Option ℚ)) : List (String × List (Option ℚ)) :=
  if cols.any (fun kv => kv.1 = name) then
    cols.map fun kv => if kv.1 = name then (name, vals) else kv
  else cols ++ [(name, vals)]

/-- helpers.calculate_atr_stop_loss with the frame threaded through: the
source assigns the four derived columns into the caller's DataFrame before
computing the ATR, but only after the length guard has passed. -/
def calculate_atr_stop_loss_frame (f : Frame) (atr_period : ℕ) (multiplier : ℚ)
    (direction : Dir) : Option ℚ × Frame :=
  if f.candles.length < atr_period then (none, f)
  else
    let w := f.candles
    let cols := assign_col (assign_col (assign_col (assign_col f.extra_cols
      "high_low" (col_high_low w))
      "high_close" (col_high_close w))
      "low_close" (col_low_close w))
      "true_range" (col_true_range w)
    (calculate_atr_stop_loss w atr_period multiplier direction,
     { candles := w, extra_cols := cols })

/-- Config.RSI_OVERSOLD. -/
def RSI_OVERSOLD : ℚ := 30

/-- Config.RSI_OVERBOUGHT. -/
def RSI_OVERBOUGHT : ℚ := 70

/-- Rule 2/3 of _check_long_conditions: `if rsi and rsi < RSI_OVERSOLD`.
The Python truthiness test makes an RSI of exactly 0 behave as absent. -/
def rsi_oversold_hit (rsi : Option ℚ) : Bool :=
  match rsi with
  | some v => decide (v ≠ 0 ∧ v < RSI_OVERSOLD)
  | none => false

/-- Rule 2/3 of _check_short_conditions: `if rsi and rsi > RSI_OVERBOUGHT`. -/
def rsi_overbought_hit (rsi : Option ℚ) : Bool :=
  match rsi with
  | some v => decide (v ≠ 0 ∧ RSI_OVERBOUGHT < v)
  | none => false

/-- Rule 6 of _check_long_conditions: the loop over
['hammer', 'bullish_engulfing', 'bullish_pinbar'] breaks at the first
match, so at most one point is scored; the point is scored iff any flag of
the list is set. -/
def bullish_pattern_hit (ps : Option Patterns) : Bool :=
  match ps with
  | some p => p.hammer || p.bullish_engulfing || p.bullish_pinbar
  | none => false

/-- Rule 6 of _check_short_conditions over
['inverted_hammer', 'bearish_engulfing', 'bearish_pinbar']. -/
def bearish_pattern_hit (ps : Option Patterns) : Bool :=
  match ps with
  | some p => p.inverted_hammer || p.bearish_engulfing || p.bearish_pinbar
  | none => false

/-- Rule 7 of _check_long_conditions:
`if current_price and support and current_price <= support * 1.02`. -/
def near_support_hit (current_price support : Option ℚ) : Bool :=
  match current_price, support with
  | some c, some s => decide (c ≠ 0 ∧ s ≠ 0 ∧ c ≤ s * (102/100))
  | _, _ => false

/-- Rule 7 of _check_short_conditions:
`if current_price and resistance and current_price >= resistance * 0.98`. -/
def near_resistance_hit (current_price resistance : Option ℚ) : Bool :=
  match current_price, resistance with
  | some c, some r => decide (c ≠ 0 ∧ r ≠ 0 ∧ r * (98/100) ≤ c)
  | _, _ => false

/-- SignalGenerator._check_long_conditions, score field.  The source
accumulates `score += 1` over eight independent checks in this fixed
order (the reasons list, which only records the fired rules, is not
modelled); the final score is the number of checks that fired. -/
def check_long_conditions (analysis_1m analysis_5m : Analysis) (btc_trend : Trend) : ℕ :=
  (if btc_trend = .bullish then 1 else 0)
  + (if rsi_oversold_hit analysis_1m.rsi_7 then 1 else 0)
  + (if rsi_oversold_hit analysis_1m.rsi_14 then 1 else 0)
  + (if analysis_5m.trend = some .bullish then 1 else 0)
  + (if analysis_1m.obv_trend = some .rising then 1 else 0)
  + (if analysis_1m.volume_spike then 1 else 0)
  + (if bullish_pattern_hit analysis_1m.candlestick_patterns then 1 else 0)
  + (if near_support_hit analysis_1m.current_price analysis_5m.support then 1 else 0)

/-- SignalGenerator._check_short_conditions, score field. -/
def check_short_conditions (analysis_1m analysis_5m : Analysis) (btc_trend : Trend) : ℕ :=
  (if btc_trend = .bearish then 1 else 0)
  + (if rsi_overbought_hit analysis_1m.rsi_7 then 1 else 0)
  + (if rsi_overbought_hit analysis_1m.rsi_14 then 1 else 0)
  + (if analysis_5m.trend = some .bearish then 1 else 0)
  + (if analysis_1m.obv_trend = some .falling then 1 else 0)
  + (if analysis_1m.volume_spike then 1 else 0)
  + (if bearish_pattern_hit analysis_1m.candlestick_patterns then 1 else 0)
  + (if near_resistance_hit analysis_1m.current_price analysis_5m.resistance then 1 else 0)

/-- The signal dict built by SignalGenerator.check_entry_conditions (the
reasons list is not modelled beyond the score). -/
structure EntrySignal where
  has_signal : Bool
  direction : Option Dir
  strength : ℕ
  price : Option ℚ
  rsi_7 : Option ℚ
  rsi_14 : Option ℚ
  volume_spike : Bool
  candlestick_patterns : Option Patterns
  fibonacci_levels : List (String × ℚ)
  stop_loss : Option ℚ
deriving DecidableEq

/-- The freshly initialised signal dict of check_entry_conditions. -/
def empty_entry_signal : EntrySignal :=
  { has_signal := false, direction := none, strength := 0, price := none,
    rsi_7 := none, rsi_14 := none, volume_spike := false,
    candlestick_patterns := none, fibonacci_levels := [], stop_loss := none }

/-- SignalGenerator.check_entry_conditions: returns the empty signal when
either window has fewer than 50 rows; otherwise scores both directions on
the comprehensive analyses and emits a signal when one score strictly
exceeds the other and reaches 3, filling the Fibonacci targets from the
last 20 bars of the 5m window and the ATR(14)x2 stop from the 1m window. -/
def check_entry_conditions (df_1m df_5m : Window) (btc_trend : Trend) : EntrySignal :=
  if df_1m.length < 50 ∨ df_5m.length < 50 then empty_entry_signal
  else
    let analysis_1m := get_comprehensive_analysis df_1m
    let analysis_5m := get_comprehensive_analysis df_5m
    let base : EntrySignal :=
      { empty_entry_signal with
        price := analysis_1m.current_price
        rsi_7 := analysis_1m.rsi_7
        rsi_14 := analysis_1m.rsi_14
        volume_spike := analysis_1m.volume_spike
        candlestick_patterns := analysis_1m.candlestick_patterns }
    let long_score := check_long_conditions analysis_1m analysis_5m btc_trend
    let short_score := check_short_conditions analysis_1m analysis_5m btc_trend
    if short_score < long_score ∧ 3 ≤ long_score then
      { base with
        has_signal := true, direction := some .LONG, strength := long_score
        fibonacci_levels := calculate_fibonacci_levels
          (maxQ (tailQ (highs df_5m) 20)) (minQ (tailQ (lows df_5m) 20)) .LONG
        stop_loss := calculate_atr_stop_loss df_1m 14 2 .LONG }
    else if long_score < short_score ∧ 3 ≤ short_score then
      { base with
        has_signal := true, direction := some .SHORT, strength := short_score
        fibonacci_levels := calculate_fibonacci_levels
          (maxQ (tailQ (highs df_5m) 20)) (minQ (tailQ (lows df_5m) 20)) .SHORT
        stop_loss := calculate_atr_stop_loss df_1m 14 2 .SHORT }
    else base

/-- SignalGenerator.validate_signal_quality: has_signal set, strength at
least 3, truthy positive price, truthy positive stop loss, and a nonempty
Fibonacci dict with every level strictly positive.  (`not price or
price <= 0` rejects exactly None and every value at most 0.) -/
def validate_signal_quality (s : EntrySignal) : Bool :=
  if !s.has_signal then false
  else if s.strength < 3 then false
  else
    match s.price with
    | none => false
    | some p =>
      if p ≤ 0 then false
      else
        match s.stop_loss with
        | none => false
        | some q =>
          if q ≤ 0 then false
          else if s.fibonacci_levels = [] then false
          else decide (∀ kv ∈ s.fibonacci_levels, 0 < kv.2)

/-- The position_data dict consumed by ExitManager.  `direction` is the
stored string uppercased: none models the empty/missing string that the
source treats as falsy. -/
structure PositionData where
  entry_price : ℚ
  direction : Option Dir
  fibonacci_levels : List (String × ℚ)
deriving DecidableEq

/-- Exit types of the analysis dict. -/
inductive ExitType where
  | take_profit
  | stop_loss
  | trailing_stop
  | reversal
deriving DecidableEq

/-- The exit_analysis dict of ExitManager.analyze_exit_conditions (reason
strings and the technical_signals sub-dict are not modelled). -/
structure ExitAnalysis where
  should_exit : Bool
  exit_type : Option ExitType
  suggested_exit_price : Option ℚ
  profit_loss_pct : ℚ
  fibonacci_hit : Option String
deriving DecidableEq

/-- The freshly initialised exit_analysis dict. -/
def empty_exit_analysis : ExitAnalysis :=
  { should_exit := false, exit_type := none, suggested_exit_price := none,
    profit_loss_pct := 0, fibonacci_hit := none }

/-- Walk of ExitManager._check_fibonacci_levels over ['TP1','TP2','TP3']
for a LONG position: report the first truthy level the price has reached;
a missing, zero or unreached level falls through to the next name. -/
def fib_walk_long (levels : List (String × ℚ)) (current_price : ℚ) :
    List String → Option String
  | [] => none
  | name :: rest =>
    match levels.lookup name with
    | some v => if v ≠ 0 ∧ v ≤ current_price then some name
                else fib_walk_long levels current_price rest
    | none => fib_walk_long levels current_price rest

/-- Walk of ExitManager._check_fibonacci_levels for a SHORT position. -/
def fib_walk_short (levels : List (String × ℚ)) (current_price : ℚ) :
    List String → Option String
  | [] => none
  | name :: rest =>
    match levels.lookup name with
    | some v => if v ≠ 0 ∧ current_price ≤ v then some name
                else fib_walk_short levels current_price rest
    | none => fib_walk_short levels current_price rest

/-- ExitManager._check_fibonacci_levels: None on an empty dict; otherwise
the first of TP1, TP2, TP3 that the current price has reached, with `≥`
for LONG and `≤` for SHORT; None for a direction that is neither. -/
def check_fibonacci_levels (pos : PositionData) (current_price : ℚ) : Option String :=
  if pos.fibonacci_levels = [] then none
  else
    match pos.direction with
    | some .LONG => fib_walk_long pos.fibonacci_levels current_price ["TP1", "TP2", "TP3"]
    | some .SHORT => fib_walk_short pos.fibonacci_levels current_price ["TP1", "TP2", "TP3"]
    | none => none

/-- ExitManager._check_dynamic_stop_loss.  Four sub-rules in order: ATR
stop breached; previous 1m bar's low/high breached; EMA20/EMA50 cross on
the 5m frame against the position; RSI(14) on the 1m frame in the extreme
opposite zone.  An empty 1m frame raises at `iloc[-1]` and the handler
returns False; a single-row frame raises at `iloc[-2]` after rule 1, so
rules 2-4 are skipped.  The source computes the ATR stop with
`direction.lower()`, whose non-'long' values all take the short branch —
with no stored direction the value is the short-branch stop and is then
unused.  The EMA-cross prev values are NaN until the 5m frame has 51 rows
(min_periods masking of ema_50 at `iloc[-2]`), and NaN comparisons are
false; the RSI value is NaN below 14 rows of the 1m frame
(min_periods=14 over the zero-padded gain column), likewise comparing
false. -/
def check_dynamic_stop_loss (pos : PositionData) (df_1m df_5m : Window) : Bool :=
  if df_1m = [] then false
  else
    let current_price := lastQ (closes df_1m)
    let atr_stop := calculate_atr_stop_loss df_1m 14 2 (pos.direction.getD .SHORT)
    let rule1 : Bool :=
      match atr_stop with
      | some a => decide (a ≠ 0) &&
          ((decide (pos.direction = some .LONG) && decide (current_price ≤ a)) ||
           (decide (pos.direction = some .SHORT) && decide (a ≤ current_price)))
      | none => false
    if rule1 then true
    else if df_1m.length < 2 then false
    else
      let prev := (df_1m.dropLast.getLast?).getD
        { timestamp := 0, «open» := 0, high := 0, low := 0, close := 0, volume := 0 }
      let rule2 : Bool :=
        (decide (pos.direction = some .LONG) && decide (current_price ≤ prev.low)) ||
        (decide (pos.direction = some .SHORT) && decide (prev.high ≤ current_price))
      if rule2 then true
      else
        let rule3 : Bool :=
          if 51 ≤ df_5m.length then
            let cs := closes df_5m
            let cur20 := ema_last 20 cs
            let cur50 := ema_last 50 cs
            let prev20 := ema_last 20 cs.dropLast
            let prev50 := ema_last 50 cs.dropLast
            (decide (pos.direction = some .LONG) &&
              decide (prev50 < prev20) && decide (cur20 < cur50)) ||
            (decide (pos.direction = some .SHORT) &&
              decide (prev20 < prev50) && decide (cur50 < cur20))
          else false
        if rule3 then true
        else
          if 14 ≤ df_1m.length then
            let current_rsi := rsi_last 14 (closes df_1m)
            (decide (pos.direction = some .LONG) && decide (current_rsi < 20)) ||
            (decide (pos.direction = some .SHORT) && decide (80 < current_rsi))
          else false

/-- ExitManager._check_trend_reversal: tally of the four opposing signals
(OBV divergence, an opposing candlestick pattern, RSI(14) beyond 75/25,
5m trend against the position); exits when at least two fire.  The RSI
signal sits behind a float truthiness test, so an RSI of exactly 0 cannot
contribute. -/
def check_trend_reversal (pos : PositionData) (df_1m df_5m : Window) : Bool :=
  let analysis_1m := get_comprehensive_analysis df_1m
  let analysis_5m := get_comprehensive_analysis df_5m
  let s1 : Bool :=
    (decide (pos.direction = some .LONG) && decide (analysis_1m.obv_trend = some .falling)) ||
    (decide (pos.direction = some .SHORT) && decide (analysis_1m.obv_trend = some .rising))
  let s2 : Bool :=
    (decide (pos.direction = some .LONG) && bearish_pattern_hit analysis_1m.candlestick_patterns) ||
    (decide (pos.direction = some .SHORT) && bullish_pattern_hit analysis_1m.candlestick_patterns)
  let s3 : Bool :=
    match analysis_1m.rsi_14 with
    | some r => decide (r ≠ 0) &&
        ((decide (pos.direction = some .LONG) && decide (75 < r)) ||
         (decide (pos.direction = some .SHORT) && decide (r < 25)))
    | none => false
  let s4 : Bool :=
    (decide (pos.direction = some .LONG) && decide (analysis_5m.trend = some .bearish)) ||
    (decide (pos.direction = some .SHORT) && decide (analysis_5m.trend = some .bullish))
  2 ≤ s1.toNat + s2.toNat + s3.toNat + s4.toNat

/-- Unrealised profit percentage as computed in analyze_exit_conditions
and _check_trailing_stop: (price-entry)/entry x 100 for LONG, the negation
for any other stored direction.  (With entry 0 the source raises and the
handler returns the no-exit default; in ℚ the division yields 0, giving
the same observable no-exit outcome.) -/
def profit_pct_of (direction : Option Dir) (entry_price current_price : ℚ) : ℚ :=
  if direction = some .LONG then ((current_price - entry_price) / entry_price) * 100
  else ((entry_price - current_price) / entry_price) * 100

/-- ExitManager._check_trailing_stop: inactive until the unrealised profit
exceeds 1%; then for LONG the stop level is 0.995 x max(low of the last
10 bars) and triggers when the price is at or below it; symmetric for
SHORT with 1.005 x min(high). -/
def check_trailing_stop (pos : PositionData) (df_1m : Window) : Bool :=
  if df_1m = [] then false
  else
    let current_price := lastQ (closes df_1m)
    let profit_pct := profit_pct_of pos.direction pos.entry_price current_price
    if profit_pct ≤ 1 then false
    else
      let lookback_period := min 10 df_1m.length
      let recent := df_1m.drop (df_1m.length - lookback_period)
      match pos.direction with
      | some .LONG => decide (current_price ≤ maxQ (lows recent) * (995/1000))
      | some .SHORT => decide (minQ (highs recent) * (1005/1000) ≤ current_price)
      | none => false

/-- ExitManager.analyze_exit_conditions: after the emptiness and
truthiness guards, the four checks run in strict priority order
(take profit, stop loss, reversal, trailing stop) and the first match
returns immediately. -/
def analyze_exit_conditions (pos : PositionData) (df_1m df_5m : Window) : ExitAnalysis :=
  if df_1m = [] ∨ df_5m = [] then empty_exit_analysis
  else
    let current_price := lastQ (closes df_1m)
    if pos.entry_price = 0 ∨ pos.direction = none then empty_exit_analysis
    else
      let base : ExitAnalysis :=
        { empty_exit_analysis with
          profit_loss_pct := profit_pct_of pos.direction pos.entry_price current_price
          suggested_exit_price := some current_price }
      match check_fibonacci_levels pos current_price with
      | some lvl =>
        { base with
          should_exit := true
          exit_type := some ExitType.take_profit
          fibonacci_hit := some lvl }
      | none =>
        if check_dynamic_stop_loss pos df_1m df_5m then
          { base with should_exit := true, exit_type := some ExitType.stop_loss }
        else if check_trend_reversal pos df_1m df_5m then
          { base with should_exit := true, exit_type := some ExitType.reversal }
        else if check_trailing_stop pos df_1m then
          { base with should_exit := true, exit_type := some ExitType.trailing_stop }
        else base

/-- Trend flip of the spec's mirror transformation (bullish and bearish
swap, neutral is fixed). -/
def flip_trend : Trend → Trend
  | .bullish => .bearish
  | .bearish => .bullish
  | .neutral => .neutral

/-- OBV-direction flip of the spec's mirror transformation. -/
def flip_obv : ObvTrend → ObvTrend
  | .rising => .falling
  | .falling => .rising

/-- Pattern swap of the spec's mirror transformation: each bullish flag
trades places with its bearish counterpart; doji is self-mirrored. -/
def swap_patterns (p : Patterns) : Patterns :=
  { doji := p.doji
    hammer := p.inverted_hammer
    inverted_hammer := p.hammer
    bullish_engulfing := p.bearish_engulfing
    bearish_engulfing := p.bullish_engulfing
    bullish_pinbar := p.bearish_pinbar
    bearish_pinbar := p.bullish_pinbar }

/-- Modelled from the spec: the mirror transformation of the testable
property "Long vs. short scoring functions are mirror-symmetric" — prices
inverted around a pivot (x goes to 2*pivot - x, support and resistance
trading places), RSI values complemented from 100, trends and the OBV
direction flipped, bullish and bearish patterns swapped; the volume-spike
flag is direction-neutral and kept. -/
def mirror_analysis (pivot : ℚ) (a : Analysis) : Analysis :=
  { rsi_7 := a.rsi_7.map (fun r => 100 - r)
    rsi_14 := a.rsi_14.map (fun r => 100 - r)
    ema_20 := a.ema_20.map (fun x => 2 * pivot - x)
    ema_50 := a.ema_50.map (fun x => 2 * pivot - x)
    obv := a.obv.map (fun x => -x)
    obv_trend := a.obv_trend.map flip_obv
    atr := a.atr
    trend := a.trend.map flip_trend
    volume_spike := a.volume_spike
    candlestick_patterns := a.candlestick_patterns.map swap_patterns
    support := a.resistance.map (fun x => 2 * pivot - x)
    resistance := a.support.map (fun x => 2 * pivot - x)
    current_price := a.current_price.map (fun x => 2 * pivot - x)
    current_volume := a.current_volume }

/-- A declining 1m bar used by the concrete scoring windows: each bar
opens at the previous close and falls by 1. -/
def bear_bar (i : ℕ) : Candle :=
  { timestamp := i, «open» := 10489/10 - i, high := 10489/10 - i,
    low := 10479/10 - i, close := 10479/10 - i, volume := 1 }

/-- A 50-bar 1m window: 49 bars declining by 1, then a hammer-shaped up
bar on a 100x volume spike closing at 1000. -/
def df1m_full : Window :=
  (List.range 49).map bear_bar ++
  [{ timestamp := 49, «open» := 9999/10, high := 100005/100, low := 999,
     close := 1000, volume := 100 }]

/-- A rising 5m bar with constant lows at 1000 and constant highs at
5000, used by the concrete scoring windows. -/
def bull_bar5 (i : ℕ) : Candle :=
  { timestamp := i, «open» := 2000 + i, high := 5000, low := 1000,
    close := 2000 + i, volume := 1 }

/-- A 50-bar 5m window rising from 2000 with support pinned at 1000. -/
def df5m_full : Window := (List.range 50).map bull_bar5

/-- Each scoring rule contributes at most one point. -/
theorem ite_point_le_one (c : Prop) [Decidable c] : (if c then 1 else 0) ≤ 1 := by
  split <;> omega

/-- The long score is a sum of eight one-point rules. -/
theorem check_long_conditions_le (a1 a5 : Analysis) (btc : Trend) :
    check_long_conditions a1 a5 btc ≤ 8 := by
  unfold check_long_conditions
  have h1 := ite_point_le_one (btc = Trend.bullish)
  have h2 := ite_point_le_one (rsi_oversold_hit a1.rsi_7 = true)
  have h3 := ite_point_le_one (rsi_oversold_hit a1.rsi_14 = true)
  have h4 := ite_point_le_one (a5.trend = some Trend.bullish)
  have h5 := ite_point_le_one (a1.obv_trend = some ObvTrend.rising)
  have h6 := ite_point_le_one (a1.volume_spike = true)
  have h7 := ite_point_le_one (bullish_pattern_hit a1.candlestick_patterns = true)
  have h8 := ite_point_le_one (near_support_hit a1.current_price a5.support = true)
  omega

/-- The short score is a sum of eight one-point rules. -/
theorem check_short_conditions_le (a1 a5 : Analysis) (btc : Trend) :
    check_short_conditions a1 a5 btc ≤ 8 := by
  unfold check_short_conditions
  have h1 := ite_point_le_one (btc = Trend.bearish)
  have h2 := ite_point_le_one (rsi_overbought_hit a1.rsi_7 = true)
  have h3 := ite_point_le_one (rsi_overbought_hit a1.rsi_14 = true)
  have h4 := ite_point_le_one (a5.trend = some Trend.bearish)
  have h5 := ite_point_le_one (a1.obv_trend = some ObvTrend.falling)
  have h6 := ite_point_le_one (a1.volume_spike = true)
  have h7 := ite_point_le_one (bearish_pattern_hit a1.candlestick_patterns = true)
  have h8 := ite_point_le_one (near_resistance_hit a1.current_price a5.resistance = true)
  omega

/-- C1 counterexample: the scorer has eight independent one-point rules
and no cap, so a window pair firing all eight long rules yields a signal
of strength 8, outside the claimed range [0,7].  The 1m window declines
for 49 bars (RSI 7 and RSI 14 deep in the oversold zone) and ends with a
hammer-shaped up bar (OBV rising) on a 100x volume spike; the 5m window
is rising (bullish EMA trend) with support at 1000, two percent above
which the 1m close of 1000 sits; the reference trend is bullish. -/
theorem c1_counterexample :
    (check_entry_conditions df1m_full df5m_full Trend.bullish).strength = 8 := by
  decide

/-- C1 amended: for every pair of windows and every reference trend the
strength of the returned signal lies in [0,8] — eight candidate rules,
each worth one point, with no cap at 7. -/
theorem c1_strength_bound (df_1m df_5m : Window) (btc_trend : Trend) :
    (check_entry_conditions df_1m df_5m btc_trend).strength ≤ 8 := by
  unfold check_entry_conditions
  split
  · exact Nat.zero_le _
  · dsimp only
    split
    · simpa using check_long_conditions_le (get_comprehensive_analysis df_1m)
        (get_comprehensive_analysis df_5m) btc_trend
    · split
      · simpa using check_short_conditions_le (get_comprehensive_analysis df_1m)
          (get_comprehensive_analysis df_5m) btc_trend
      · exact Nat.zero_le _

/-- C9: the Fibonacci take-profit levels follow
TPn = low + (high-low) x ratio for long and TPn = high - (high-low) x ratio
for short with ratios 0.382 / 0.618 / 1.0 / 1.618, and on the range
high=110, low=100 they evaluate to (103.82, 106.18, 110.0, 116.18) for
long and (106.18, 103.82, 100.0, 93.82) for short — exactly, since the
embedding is over ℚ. -/
theorem c9_fibonacci_levels :
    (∀ high low : ℚ,
      calculate_fibonacci_levels high low Dir.LONG =
        [("TP1", low + (high - low) * (382/1000)),
         ("TP2", low + (high - low) * (618/1000)),
         ("TP3", low + (high - low) * 1),
         ("TP4", low + (high - low) * (1618/1000))] ∧
      calculate_fibonacci_levels high low Dir.SHORT =
        [("TP1", high - (high - low) * (382/1000)),
         ("TP2", high - (high - low) * (618/1000)),
         ("TP3", high - (high - low) * 1),
         ("TP4", high - (high - low) * (1618/1000))]) ∧
    calculate_fibonacci_levels 110 100 Dir.LONG =
      [("TP1", 10382/100), ("TP2", 10618/100), ("TP3", 110), ("TP4", 11618/100)] ∧
    calculate_fibonacci_levels 110 100 Dir.SHORT =
      [("TP1", 10618/100), ("TP2", 10382/100), ("TP3", 100), ("TP4", 9382/100)] :=
  ⟨fun _ _ => ⟨rfl, rfl⟩, by decide, by decide⟩

/-- C7: the quality gate passes exactly the signals that are flagged, have
strength at least 3, carry a strictly positive price and stop loss, and a
nonempty Fibonacci map all of whose levels are strictly positive. -/
theorem c7_quality_gate (s : EntrySignal) :
    validate_signal_quality s = true ↔
      (s.has_signal = true ∧ 3 ≤ s.strength ∧
       (∃ p, s.price = some p ∧ 0 < p) ∧
       (∃ q, s.stop_loss = some q ∧ 0 < q) ∧
       s.fibonacci_levels ≠ [] ∧ ∀ kv ∈ s.fibonacci_levels, 0 < kv.2) := by
  unfold validate_signal_quality
  cases hh : s.has_signal <;>
    cases hp : s.price <;>
      cases hq : s.stop_loss <;>
        simp_all

/-- A flat 120-priced bar (open = high = low = close): its true range is
0, so the ATR stop for a long position coincides with the current price. -/
def flat_bar (i : ℕ) : Candle :=
  { timestamp := i, «open» := 120, high := 120, low := 120, close := 120, volume := 1 }

/-- A 14-bar flat 1m window at price 120. -/
def df1m_flat : Window := (List.range 14).map flat_bar

/-- A candle frame around the flat window with no derived columns, as
delivered by the data collaborator. -/
def frame_flat : Frame := { candles := df1m_flat, extra_cols := [] }

/-- C5 counterexample: calculate_atr_stop_loss does not leave the caller's
frame unchanged — after the call the frame carries the four derived
columns high_low, high_close, low_close and true_range that the source
assigns into the DataFrame. -/
theorem c5_counterexample :
    (calculate_atr_stop_loss_frame frame_flat 14 2 Dir.LONG).2 ≠ frame_flat := by
  decide

/-- C5 amended: no core operation changes the candle rows themselves — in
particular the ATR stop-loss computation returns the caller's candle data
intact and its value is the pure function of those rows — but the frame
object is mutated: four derived columns are assigned into it whenever the
length guard passes. -/
theorem c5_candles_preserved (f : Frame) (atr_period : ℕ) (multiplier : ℚ) (direction : Dir) :
    ((calculate_atr_stop_loss_frame f atr_period multiplier direction).2).candles = f.candles ∧
    (calculate_atr_stop_loss_frame f atr_period multiplier direction).1 =
      calculate_atr_stop_loss f.candles atr_period multiplier direction := by
  unfold calculate_atr_stop_loss_frame
  split
  · refine ⟨rfl, ?_⟩
    unfold calculate_atr_stop_loss
    rw [if_pos (by assumption)]
  · exact ⟨rfl, rfl⟩

/-- The analysis dict of a window whose RSI columns sit exactly at 0. -/
def analysis_rsi_zero : Analysis :=
  { empty_analysis with rsi_7 := some 0, rsi_14 := some 0 }

/-- C10: the RSI-zone entry rules are guarded by Python float truthiness
(`if rsi and rsi < threshold`), so they award their point exactly when the
value is present, nonzero and inside the zone; an RSI of exactly 0 never
fires the long-side oversold rule although 0 is below the threshold, it
behaves as an absent value for the whole long score, and the mirror value
100 does fire the short-side overbought rule. -/
theorem c10_rsi_truthiness :
    (∀ r : Option ℚ, rsi_oversold_hit r = true ↔
      ∃ v, r = some v ∧ v ≠ 0 ∧ v < RSI_OVERSOLD) ∧
    (∀ r : Option ℚ, rsi_overbought_hit r = true ↔
      ∃ v, r = some v ∧ v ≠ 0 ∧ RSI_OVERBOUGHT < v) ∧
    (rsi_oversold_hit (some 0) = false ∧ (0 : ℚ) < RSI_OVERSOLD) ∧
    rsi_overbought_hit (some 100) = true ∧
    (∀ (a1 a5 : Analysis) (btc : Trend), a1.rsi_7 = some 0 → a1.rsi_14 = some 0 →
      check_long_conditions a1 a5 btc =
        check_long_conditions { a1 with rsi_7 := none, rsi_14 := none } a5 btc) := by
  refine ⟨?_, ?_, by decide, by decide, ?_⟩
  · intro r
    cases r with
    | none => simp [rsi_oversold_hit]
    | some v => simp [rsi_oversold_hit]
  · intro r
    cases r with
    | none => simp [rsi_overbought_hit]
    | some v => simp [rsi_overbought_hit]
  · intro a1 a5 btc h7 h14
    unfold check_long_conditions
    rw [h7, h14]
    rfl

/-- Witness for C10 at a concrete analysis whose RSI columns are 0: the
long score ignores them entirely. -/
theorem c10_witness :
    check_long_conditions analysis_rsi_zero empty_analysis Trend.neutral =
      check_long_conditions { analysis_rsi_zero with rsi_7 := none, rsi_14 := none }
        empty_analysis Trend.neutral :=
  c10_rsi_truthiness.2.2.2.2 analysis_rsi_zero empty_analysis Trend.neutral rfl rfl

/-- C4: the trailing stop never reports a stop while the unrealised profit
is at most 1 percent, whatever the price's relation to the computed
trailing level. -/
theorem c4_trailing_inactive (pos : PositionData) (df_1m : Window)
    (h : profit_pct_of pos.direction pos.entry_price (lastQ (closes df_1m)) ≤ 1) :
    check_trailing_stop pos df_1m = false := by
  unfold check_trailing_stop
  split
  · rfl
  · dsimp only
    rw [if_pos h]

/-- A long position opened at 100, used by the trailing-stop witness. -/
def pos_small_profit : PositionData :=
  { entry_price := 100, direction := some Dir.LONG, fibonacci_levels := [] }

/-- A one-bar window whose close of 100.5 sits far below the trailing
level 0.995 x 200 = 199 computed from its low. -/
def df_below_trailing : Window :=
  [{ timestamp := 0, «open» := 100, high := 300, low := 200, close := 201/2, volume := 1 }]

/-- Witness for C4: profit 0.5 percent, price beyond the trailing level,
yet no stop. -/
theorem c4_witness :
    check_trailing_stop pos_small_profit df_below_trailing = false ∧
    lastQ (closes df_below_trailing) ≤
      maxQ (lows (df_below_trailing.drop
        (df_below_trailing.length - min 10 df_below_trailing.length))) * (995/1000) :=
  ⟨c4_trailing_inactive pos_small_profit df_below_trailing (by decide), by decide⟩

/-- A fibonacci hit can only be reported for a stored LONG or SHORT
direction. -/
theorem check_fib_direction {pos : PositionData} {cp : ℚ} {lvl : String}
    (h : check_fibonacci_levels pos cp = some lvl) : pos.direction ≠ none := by
  intro hd
  unfold check_fibonacci_levels at h
  by_cases he : pos.fibonacci_levels = []
  · rw [if_pos he] at h
    exact Option.noConfusion h
  · rw [if_neg he, hd] at h
    exact Option.noConfusion h

/-- C2: after the guards, the exit evaluator applies its four checks in
strict priority order — take profit, stop loss, reversal, trailing stop —
and the first match returns immediately; in particular a reached Fibonacci
level always yields exit_type take_profit, whatever the stop-loss rules
would say, and when no check matches there is no exit. -/
theorem c2_exit_priority (pos : PositionData) (df_1m df_5m : Window)
    (h1 : df_1m ≠ []) (h5 : df_5m ≠ []) (he : pos.entry_price ≠ 0) :
    (∀ lvl, check_fibonacci_levels pos (lastQ (closes df_1m)) = some lvl →
      (analyze_exit_conditions pos df_1m df_5m).should_exit = true ∧
      (analyze_exit_conditions pos df_1m df_5m).exit_type = some ExitType.take_profit) ∧
    (pos.direction ≠ none →
      check_fibonacci_levels pos (lastQ (closes df_1m)) = none →
      check_dynamic_stop_loss pos df_1m df_5m = true →
      (analyze_exit_conditions pos df_1m df_5m).exit_type = some ExitType.stop_loss) ∧
    (pos.direction ≠ none →
      check_fibonacci_levels pos (lastQ (closes df_1m)) = none →
      check_dynamic_stop_loss pos df_1m df_5m = false →
      check_trend_reversal pos df_1m df_5m = true →
      (analyze_exit_conditions pos df_1m df_5m).exit_type = some ExitType.reversal) ∧
    (pos.direction ≠ none →
      check_fibonacci_levels pos (lastQ (closes df_1m)) = none →
      check_dynamic_stop_loss pos df_1m df_5m = false →
      check_trend_reversal pos df_1m df_5m = false →
      check_trailing_stop pos df_1m = true →
      (analyze_exit_conditions pos df_1m df_5m).exit_type = some ExitType.trailing_stop) ∧
    (pos.direction ≠ none →
      check_fibonacci_levels pos (lastQ (closes df_1m)) = none →
      check_dynamic_stop_loss pos df_1m df_5m = false →
      check_trend_reversal pos df_1m df_5m = false →
      check_trailing_stop pos df_1m = false →
      (analyze_exit_conditions pos df_1m df_5m).should_exit = false) := by
  have hg1 : ¬(df_1m = [] ∨ df_5m = []) := by tauto
  refine ⟨?_, ?_, ?_, ?_, ?_⟩
  · intro lvl hfib
    have hd := check_fib_direction hfib
    have hg2 : ¬(pos.entry_price = 0 ∨ pos.direction = none) := by tauto
    unfold analyze_exit_conditions
    rw [if_neg hg1]
    dsimp only
    rw [if_neg hg2, hfib]
    exact ⟨rfl, rfl⟩
  · intro hd hfib hstop
    have hg2 : ¬(pos.entry_price = 0 ∨ pos.direction = none) := by tauto
    unfold analyze_exit_conditions
    rw [if_neg hg1]
    dsimp only
    rw [if_neg hg2, hfib]
    simp [hstop]
  · intro hd hfib hstop hrev
    have hg2 : ¬(pos.entry_price = 0 ∨ pos.direction = none) := by tauto
    unfold analyze_exit_conditions
    rw [if_neg hg1]
    dsimp only
    rw [if_neg hg2, hfib]
    simp [hstop, hrev]
  · intro hd hfib hstop hrev htrail
    have hg2 : ¬(pos.entry_price = 0 ∨ pos.direction = none) := by tauto
    unfold analyze_exit_conditions
    rw [if_neg hg1]
    dsimp only
    rw [if_neg hg2, hfib]
    simp [hstop, hrev, htrail]
  · intro hd hfib hstop hrev htrail
    have hg2 : ¬(pos.entry_price = 0 ∨ pos.direction = none) := by tauto
    unfold analyze_exit_conditions
    rw [if_neg hg1]
    dsimp only
    rw [if_neg hg2, hfib]
    simp [hstop, hrev, htrail, empty_exit_analysis]

/-- A long position whose stored Fibonacci targets begin below the flat
price 120 of df1m_flat, so TP1 is reached while the flat window also
satisfies the ATR stop condition (its true ranges are all 0, putting the
ATR stop exactly at the current price). -/
def pos_tp : PositionData :=
  { entry_price := 100, direction := some Dir.LONG,
    fibonacci_levels := [("TP1", 110), ("TP2", 112), ("TP3", 115), ("TP4", 120)] }

/-- Witness for C2: a position meeting a Fibonacci target and the ATR stop
simultaneously reports take_profit, never stop_loss. -/
theorem c2_witness :
    (analyze_exit_conditions pos_tp df1m_flat df1m_flat).exit_type =
      some ExitType.take_profit ∧
    check_dynamic_stop_loss pos_tp df1m_flat df1m_flat = true :=
  ⟨((c2_exit_priority pos_tp df1m_flat df1m_flat (by decide) (by decide)
      (by decide)).1 "TP1" (by decide)).2, by decide⟩

/-- C3: with two full windows, a signal is emitted iff the larger of the
long and short scores reaches 3 and strictly exceeds the other (so a tie
at any value emits nothing), and the emitted direction is the side of the
strictly larger score. -/
theorem c3_signal_iff (df_1m df_5m : Window) (btc_trend : Trend)
    (h1 : 50 ≤ df_1m.length) (h5 : 50 ≤ df_5m.length) :
    ((check_entry_conditions df_1m df_5m btc_trend).has_signal = true ↔
      (3 ≤ max (check_long_conditions (get_comprehensive_analysis df_1m)
                  (get_comprehensive_analysis df_5m) btc_trend)
              (check_short_conditions (get_comprehensive_analysis df_1m)
                  (get_comprehensive_analysis df_5m) btc_trend) ∧
        check_long_conditions (get_comprehensive_analysis df_1m)
            (get_comprehensive_analysis df_5m) btc_trend ≠
          check_short_conditions (get_comprehensive_analysis df_1m)
            (get_comprehensive_analysis df_5m) btc_trend)) ∧
    ((check_entry_conditions df_1m df_5m btc_trend).has_signal = true →
      (check_entry_conditions df_1m df_5m btc_trend).direction =
        some (if check_short_conditions (get_comprehensive_analysis df_1m)
                  (get_comprehensive_analysis df_5m) btc_trend <
                check_long_conditions (get_comprehensive_analysis df_1m)
                  (get_comprehensive_analysis df_5m) btc_trend
              then Dir.LONG else Dir.SHORT)) := by
  have hlen : ¬(df_1m.length < 50 ∨ df_5m.length < 50) := by omega
  unfold check_entry_conditions
  rw [if_neg hlen]
  dsimp only
  by_cases hL : check_short_conditions (get_comprehensive_analysis df_1m)
      (get_comprehensive_analysis df_5m) btc_trend <
      check_long_conditions (get_comprehensive_analysis df_1m)
        (get_comprehensive_analysis df_5m) btc_trend ∧
      3 ≤ check_long_conditions (get_comprehensive_analysis df_1m)
        (get_comprehensive_analysis df_5m) btc_trend
  · rw [if_pos hL]
    refine ⟨?_, ?_⟩
    · simp only [true_iff]
      exact ⟨le_max_of_le_left hL.2, Nat.ne_of_gt hL.1⟩
    · intro _
      rw [if_pos hL.1]
  · rw [if_neg hL]
    by_cases hS : check_long_conditions (get_comprehensive_analysis df_1m)
        (get_comprehensive_analysis df_5m) btc_trend <
        check_short_conditions (get_comprehensive_analysis df_1m)
          (get_comprehensive_analysis df_5m) btc_trend ∧
        3 ≤ check_short_conditions (get_comprehensive_analysis df_1m)
          (get_comprehensive_analysis df_5m) btc_trend
    · rw [if_pos hS]
      refine ⟨?_, ?_⟩
      · simp only [true_iff]
        exact ⟨le_max_of_le_right hS.2, Nat.ne_of_lt hS.1⟩
      · intro _
        rw [if_neg (Nat.not_lt.mpr (Nat.le_of_lt hS.1))]
    · rw [if_neg hS]
      refine ⟨?_, ?_⟩
      · rw [Nat.max_def]
        refine iff_of_false (by simp [empty_entry_signal]) ?_
        rintro ⟨hmax, hne⟩
        split at hmax <;> omega
      · intro hcon
        simp [empty_entry_signal] at hcon

/-- Witness for C3 at the concrete full windows: the long score 8 beats
the short score, so a LONG signal is emitted. -/
theorem c3_witness :
    (check_entry_conditions df1m_full df5m_full Trend.bullish).direction = some Dir.LONG := by
  have h := c3_signal_iff df1m_full df5m_full Trend.bullish (by decide) (by decide)
  exact (h.2 (h.1.mpr (by decide))).trans (by decide)

/-- Complementing a nonzero RSI from 100 carries the long oversold rule to
the short overbought rule. -/
theorem rsi_hit_mirror (r : Option ℚ) (h : r ≠ some 0) :
    rsi_overbought_hit (r.map fun v => 100 - v) = rsi_oversold_hit r := by
  cases r with
  | none => rfl
  | some v =>
    have hv : v ≠ 0 := fun h0 => h (by rw [h0])
    show decide (100 - v ≠ 0 ∧ RSI_OVERBOUGHT < 100 - v) =
      decide (v ≠ 0 ∧ v < RSI_OVERSOLD)
    rw [decide_eq_decide]
    unfold RSI_OVERBOUGHT RSI_OVERSOLD
    constructor
    · rintro ⟨-, hlt⟩
      exact ⟨hv, by linarith⟩
    · rintro ⟨-, hlt⟩
      refine ⟨fun h0 => ?_, by linarith⟩
      have : v = 100 := by linarith [sub_eq_zero.mp h0]
      linarith

/-- C8 amended: the short-side score of the mirrored analyses equals the
long-side score of the originals provided (i) any present RSI value is
nonzero — an RSI of exactly 0 is falsy on the long side while its mirror
100 fires the short side — and (ii) when both the current price and the
support are present, the pivot sits at the support level and the data is
non-degenerate (support and price nonzero, price not at twice the
support): the multiplicative 2 percent proximity bands around support and
resistance are not preserved by reflection about an arbitrary pivot. -/
theorem c8_mirror_symmetry (a1 a5 : Analysis) (btc_trend : Trend) (pivot : ℚ)
    (h7 : a1.rsi_7 ≠ some 0) (h14 : a1.rsi_14 ≠ some 0)
    (hps : match a1.current_price, a5.support with
           | some c, some s => pivot = s ∧ s ≠ 0 ∧ c ≠ 0 ∧ c ≠ 2 * s
           | _, _ => True) :
    check_short_conditions (mirror_analysis pivot a1) (mirror_analysis pivot a5)
      (flip_trend btc_trend) = check_long_conditions a1 a5 btc_trend := by
  have e1 : (if flip_trend btc_trend = Trend.bearish then 1 else 0) =
      (if btc_trend = Trend.bullish then 1 else 0) := by
    cases btc_trend <;> rfl
  have e2 : rsi_overbought_hit (mirror_analysis pivot a1).rsi_7 =
      rsi_oversold_hit a1.rsi_7 := rsi_hit_mirror a1.rsi_7 h7
  have e3 : rsi_overbought_hit (mirror_analysis pivot a1).rsi_14 =
      rsi_oversold_hit a1.rsi_14 := rsi_hit_mirror a1.rsi_14 h14
  have e4 : (if (mirror_analysis pivot a5).trend = some Trend.bearish then 1 else 0) =
      (if a5.trend = some Trend.bullish then 1 else 0) := by
    show (if a5.trend.map flip_trend = some Trend.bearish then 1 else 0) = _
    cases a5.trend with
    | none => rfl
    | some t => cases t <;> rfl
  have e5 : (if (mirror_analysis pivot a1).obv_trend = some ObvTrend.falling then 1 else 0) =
      (if a1.obv_trend = some ObvTrend.rising then 1 else 0) := by
    show (if a1.obv_trend.map flip_obv = some ObvTrend.falling then 1 else 0) = _
    cases a1.obv_trend with
    | none => rfl
    | some t => cases t <;> rfl
  have e6 : (mirror_analysis pivot a1).volume_spike = a1.volume_spike := rfl
  have e7 : bearish_pattern_hit (mirror_analysis pivot a1).candlestick_patterns =
      bullish_pattern_hit a1.candlestick_patterns := by
    show bearish_pattern_hit (a1.candlestick_patterns.map swap_patterns) = _
    cases a1.candlestick_patterns with
    | none => rfl
    | some p => rfl
  have e8 : near_resistance_hit (mirror_analysis pivot a1).current_price
      (mirror_analysis pivot a5).resistance =
      near_support_hit a1.current_price a5.support := by
    show near_resistance_hit (a1.current_price.map fun x => 2 * pivot - x)
      (a5.support.map fun x => 2 * pivot - x) = _
    cases hc : a1.current_price with
    | none => cases a5.support <;> rfl
    | some c =>
      cases hs : a5.support with
      | none => rfl
      | some s =>
        rw [hc, hs] at hps
        obtain ⟨hp, hs0, hc0, hc2s⟩ := hps
        rw [hp]
        show decide (2 * s - c ≠ 0 ∧ 2 * s - s ≠ 0 ∧ (2 * s - s) * (98/100) ≤ 2 * s - c) =
          decide (c ≠ 0 ∧ s ≠ 0 ∧ c ≤ s * (102/100))
        rw [decide_eq_decide]
        constructor
        · rintro ⟨-, -, hle⟩
          exact ⟨hc0, hs0, by linarith⟩
        · rintro ⟨-, -, hle⟩
          refine ⟨fun h0 => hc2s (by linarith), fun h0 => hs0 (by linarith), by linarith⟩
  unfold check_short_conditions check_long_conditions
  rw [e1, e2, e3, e4, e5, e6, e7, e8]

/-- The analysis of a quiet 1m frame whose only feature is a current price
of 103, used against a support of 100: 103 misses the long 2 percent band
(upper edge 102) while its mirror about 200 lands inside the short band
(297 against the edge 294). -/
def analysis_price_only : Analysis := { empty_analysis with current_price := some 103 }

/-- The analysis of a 5m frame carrying only support 100 and resistance
500. -/
def analysis_sr : Analysis :=
  { empty_analysis with support := some 100, resistance := some 500 }

/-- C8 counterexample: the literal mirror transformation does not preserve
the scores.  First, an analysis whose RSI columns are exactly 0 mirrors to
RSI 100 — the long side scores 0, the mirrored short side scores 2,
whatever the pivot, because the zero is falsy.  Second, with price 103 and
support 100 the long proximity rule misses while the short rule on the
mirror about pivot 200 hits, because the 2 percent bands are
multiplicative and reflection is additive. -/
theorem c8_counterexample :
    (check_short_conditions (mirror_analysis 0 analysis_rsi_zero)
        (mirror_analysis 0 empty_analysis) (flip_trend Trend.neutral) = 2 ∧
      check_long_conditions analysis_rsi_zero empty_analysis Trend.neutral = 0) ∧
    (check_short_conditions (mirror_analysis 200 analysis_price_only)
        (mirror_analysis 200 analysis_sr) (flip_trend Trend.neutral) = 1 ∧
      check_long_conditions analysis_price_only analysis_sr Trend.neutral = 0) := by
  exact ⟨⟨by decide, by decide⟩, ⟨by decide, by decide⟩⟩

/-- A fully featured long-side analysis pair for the C8 witness. -/
def analysis_w1 : Analysis :=
  { empty_analysis with
    rsi_7 := some 25, rsi_14 := some 28, obv_trend := some ObvTrend.rising,
    volume_spike := true,
    candlestick_patterns := some
      { doji := false, hammer := true, inverted_hammer := false,
        bullish_engulfing := false, bearish_engulfing := false,
        bullish_pinbar := false, bearish_pinbar := false },
    current_price := some 100 }

/-- The matching 5m analysis with a bullish trend and support 100. -/
def analysis_w5 : Analysis :=
  { empty_analysis with
    trend := some Trend.bullish
    support := some 100
    resistance := some 500 }

/-- Witness for C8 with the pivot at the support level. -/
theorem c8_witness :
    check_short_conditions (mirror_analysis 100 analysis_w1) (mirror_analysis 100 analysis_w5)
      (flip_trend Trend.bullish) =
      check_long_conditions analysis_w1 analysis_w5 Trend.bullish :=
  c8_mirror_symmetry analysis_w1 analysis_w5 Trend.bullish 100 (by decide) (by decide)
    (by exact ⟨rfl, by norm_num, by norm_num, by norm_num⟩)

/-- Rewrite every timestamp of a window (the candle values are kept). -/
def retime (g : Candle → Int) (w : Window) : Window :=
  w.map fun c => { c with timestamp := g c }

theorem closes_retime (g : Candle → Int) (w : Window) : closes (retime g w) = closes w := by
  unfold closes retime
  rw [List.map_map]
  rfl

theorem volumes_retime (g : Candle → Int) (w : Window) : volumes (retime g w) = volumes w := by
  unfold volumes retime
  rw [List.map_map]
  rfl

theorem lows_retime (g : Candle → Int) (w : Window) : lows (retime g w) = lows w := by
  unfold lows retime
  rw [List.map_map]
  rfl

theorem highs_retime (g : Candle → Int) (w : Window) : highs (retime g w) = highs w := by
  unfold highs retime
  rw [List.map_map]
  rfl

theorem length_retime (g : Candle → Int) (w : Window) :
    (retime g w).length = w.length := List.length_map _ _

theorem obv_list_retime (g : Candle → Int) (w : Window) : obv_list (retime g w) = obv_list w := by
  unfold obv_list
  rw [closes_retime, volumes_retime]

theorem true_ranges_retime (g : Candle → Int) (pc : Option ℚ) (w : Window) :
    true_ranges pc (retime g w) = true_ranges pc w := by
  induction w generalizing pc with
  | nil => rfl
  | cons c t ih =>
    show true_ranges pc ({ c with timestamp := g c } :: retime g t) = _
    unfold true_ranges
    rw [ih]

theorem atr_last_retime (g : Candle → Int) (window : ℕ) (w : Window) :
    atr_last window (retime g w) = atr_last window w := by
  unfold atr_last
  rw [true_ranges_retime]

theorem analyze_trend_retime (g : Candle → Int) (w : Window) (f s : ℕ) :
    analyze_trend (retime g w) f s = analyze_trend w f s := by
  unfold analyze_trend
  rw [length_retime, closes_retime]

theorem detect_volume_spike_retime (g : Candle → Int) (w : Window) (m : ℚ) (lb : ℕ) :
    detect_volume_spike (retime g w) m lb = detect_volume_spike w m lb := by
  unfold detect_volume_spike
  rw [length_retime, volumes_retime]

theorem calculate_support_resistance_retime (g : Candle → Int) (w : Window) (win : ℕ) :
    calculate_support_resistance (retime g w) win = calculate_support_resistance w win := by
  unfold calculate_support_resistance
  rw [length_retime, lows_retime, highs_retime]

theorem identify_candlestick_patterns_retime (g : Candle → Int) (w : Window) :
    identify_candlestick_patterns (retime g w) = identify_candlestick_patterns w := by
  unfold identify_candlestick_patterns
  rw [length_retime]
  split
  · rfl
  · show (match (retime g w).getLast?, (retime g w).dropLast.getLast? with
      | some cur, some prev => _ | _, _ => none) = _
    unfold retime
    rw [List.getLast?_map, ← List.map_dropLast, List.getLast?_map]
    cases w.getLast? <;> cases w.dropLast.getLast? <;> rfl

/-- C6 amended: the indicator engine performs no validation of its input
series — the snapshot is a function of the OHLCV columns alone (the
timestamps are never read), and every nonempty window, well-formed or
not, yields a computed snapshot whose current price is the last close. -/
theorem c6_no_validation :
    (∀ (w : Window) (g : Candle → Int),
      get_comprehensive_analysis (retime g w) = get_comprehensive_analysis w) ∧
    (∀ w : Window, w ≠ [] →
      (get_comprehensive_analysis w).current_price = some (lastQ (closes w))) := by
  constructor
  · intro w g
    by_cases hw : w = []
    · subst hw
      rfl
    · have hne : retime g w ≠ [] := by
        unfold retime
        simpa using hw
      unfold get_comprehensive_analysis
      rw [if_neg hne, if_neg hw]
      dsimp only
      rw [length_retime, closes_retime, volumes_retime, obv_list_retime,
        atr_last_retime, analyze_trend_retime, detect_volume_spike_retime,
        identify_candlestick_patterns_retime, calculate_support_resistance_retime]
  · intro w hw
    unfold get_comprehensive_analysis
    rw [if_neg hw]

/-- A malformed candle: high below low, open and close outside the
high/low range. -/
def bad_bar : Candle :=
  { timestamp := 5, «open» := 3, high := 1, low := 2, close := 4, volume := 1 }

/-- A three-row series whose timestamps are all equal (not strictly
increasing) and whose every bar violates the OHLC invariant. -/
def df_malformed : Window := [bad_bar, bad_bar, bad_bar]

/-- Well-formedness of a candle series as stated by the spec's data model,
part one: strictly increasing timestamps. -/
def strictly_increasing : List Int → Bool
  | a :: b :: t => decide (a < b) && strictly_increasing (b :: t)
  | _ => true

/-- Well-formedness of a candle series as stated by the spec's data model:
strictly increasing timestamps, and per bar the high at least every other
price and the low at most every other price. -/
def well_formed_series (w : Window) : Bool :=
  strictly_increasing (w.map Candle.timestamp) &&
  w.all fun c =>
    decide (maxQ2 c.«open» (maxQ2 c.close c.low) ≤ c.high ∧
      c.low ≤ minQ2 c.«open» (minQ2 c.close c.high))

/-- C6 counterexample: the engine accepts a malformed series — equal
timestamps, high below low — and returns a computed snapshot (current
price 4, a trend classification, an OBV direction) instead of a wholly
absent one. -/
theorem c6_counterexample :
    well_formed_series df_malformed = false ∧
    get_comprehensive_analysis df_malformed ≠ empty_analysis ∧
    (get_comprehensive_analysis df_malformed).current_price = some 4 := by
  exact ⟨by decide, by decide, by decide⟩

/-- Witness for C6: the nonempty malformed window takes the computed
branch of the engine. -/
theorem c6_witness :
    (get_comprehensive_analysis df_malformed).current_price =
      some (lastQ (closes df_malformed)) :=
  c6_no_validation.2 df_malformed (by decide)
